import Mathlib

/-!
Verification of the MediTriage-AI triage core and its chat frontend.

The backend triage service (a Flask application) is not present in the
frontend sources; its rule table and classification bands are documented
in the project README ("Triage Logic").  Definitions whose doc comment
starts with `Modelled from the spec:` reconstruct that missing backend
from the specification text; everything else is translated from the
frontend sources (`ChatPage.jsx` and its navy-theme variant).
-/

namespace MediTriage

/-- Accumulated structured symptom facts of one session: singleton slots
for temperature (°F), duration (days) and severity (1..5), and the two
persistent boolean flags. -/
structure FactSet where
  temperature_f : Option ℚ
  duration_days : Option ℕ
  severity : Option ℤ
  breathing_difficulty : Bool
  chest_pain : Bool
deriving DecidableEq

/-- Identifiers of the five scoring rules. -/
inductive RuleId
  | highFever
  | prolonged
  | breathing
  | chestPain
  | severePain
deriving DecidableEq

/-- The fixed rule list, in the order of the README table. -/
def allRules : List RuleId :=
  [RuleId.highFever, RuleId.prolonged, RuleId.breathing, RuleId.chestPain, RuleId.severePain]

/-- Modelled from the spec: the points of each rule (backend Risk Scorer,
README "Triage Logic": fever +2, duration +2, breathing +3, chest pain +4,
severe pain +2). -/
def rulePoints : RuleId → ℕ
  | RuleId.highFever => 2
  | RuleId.prolonged => 2
  | RuleId.breathing => 3
  | RuleId.chestPain => 4
  | RuleId.severePain => 2

/-- Modelled from the spec: High fever fires when temperature_f > 102
(strict comparison); an unset temperature never fires it. -/
def highFeverCond (f : FactSet) : Bool :=
  match f.temperature_f with
  | some t => decide (102 < t)
  | none => false

/-- Modelled from the spec: Prolonged fires when duration_days > 3. -/
def prolongedCond (f : FactSet) : Bool :=
  match f.duration_days with
  | some d => decide (3 < d)
  | none => false

/-- Modelled from the spec: Breathing fires when the breathing_difficulty
flag is present. -/
def breathingCond (f : FactSet) : Bool :=
  f.breathing_difficulty

/-- Modelled from the spec: Chest pain fires when the chest_pain flag is
present. -/
def chestPainCond (f : FactSet) : Bool :=
  f.chest_pain

/-- Modelled from the spec: Severe pain fires when severity is 4 or 5. -/
def severePainCond (f : FactSet) : Bool :=
  match f.severity with
  | some s => decide (s = 4 ∨ s = 5)
  | none => false

/-- The condition of each rule, dispatching to the five conditions above. -/
def ruleCondition : RuleId → FactSet → Bool
  | RuleId.highFever, f => highFeverCond f
  | RuleId.prolonged, f => prolongedCond f
  | RuleId.breathing, f => breathingCond f
  | RuleId.chestPain, f => chestPainCond f
  | RuleId.severePain, f => severePainCond f

/-- Modelled from the spec: the backend Risk Scorer evaluates each rule
independently and accumulates its points when its condition holds; the
sum is not capped. -/
def riskScore (f : FactSet) : ℕ :=
  (if highFeverCond f then 2 else 0) +
  (if prolongedCond f then 2 else 0) +
  (if breathingCond f then 3 else 0) +
  (if chestPainCond f then 4 else 0) +
  (if severePainCond f then 2 else 0)

/-- Modelled from the spec: `triggered_rules` records which rules fired,
for explainability in the response payload. -/
def triggeredRules (f : FactSet) : List RuleId :=
  (if highFeverCond f then [RuleId.highFever] else []) ++
  (if prolongedCond f then [RuleId.prolonged] else []) ++
  (if breathingCond f then [RuleId.breathing] else []) ++
  (if chestPainCond f then [RuleId.chestPain] else []) ++
  (if severePainCond f then [RuleId.severePain] else [])

/-- The four conversation phases of the triage core. -/
inductive Phase
  | collecting
  | query
  | appointment
  | emergency
deriving DecidableEq

/-- Modelled from the spec: duration, severity and temperature are the
required singleton facts; `missingRequired` is true while any is unset. -/
def missingRequired (f : FactSet) : Bool :=
  f.duration_days.isNone || f.severity.isNone || f.temperature_f.isNone

/-- Modelled from the spec: chest pain or breathing difficulty are
hard-override flags that let classification proceed with missing facts. -/
def hardOverride (f : FactSet) : Bool :=
  f.chest_pain || f.breathing_difficulty

/-- Modelled from the spec: the classification bands on the uncapped
score (README: score ≤ 3 query, 4–6 appointment, > 6 emergency). -/
def phaseOfScore (s : ℕ) : Phase :=
  if s ≤ 3 then Phase.query
  else if s ≤ 6 then Phase.appointment
  else Phase.emergency

/-- Modelled from the spec: the Phase Classifier forces `collecting`
while required facts are missing, unless a hard-override flag is present,
in which case the score bands apply immediately. -/
def classify (f : FactSet) (s : ℕ) : Phase :=
  if missingRequired f && !hardOverride f then Phase.collecting
  else phaseOfScore s

/-- A fact set holding only a temperature reading. -/
def tempOnly (t : ℚ) : FactSet :=
  { temperature_f := some t
    duration_days := none
    severity := none
    breathing_difficulty := false
    chest_pain := false }

/-! ## Frontend chat state (`ChatPage.jsx`)

The shapes below are translated from the React component: its `useState`
hooks become the fields of `ChatState`, the `sendMessage` and
`resetConversation` handlers become state-transition functions, and the
awaited API call is made explicit as an `ApiOutcome` argument (resolved
with a `TurnResult`, or rejected). -/

/-- The triage payload attached to a system message: `risk_score` is the
value the UI renders. -/
structure TriageInfo where
  risk_score : ℕ
deriving DecidableEq

/-- A hospital entry of the emergency panel. -/
structure Hospital where
  name : String
  distance : String
  wait_time : String
  phone : String
deriving DecidableEq

/-- A doctor entry of the appointment panel. -/
structure Doctor where
  name : String
  specialization : String
  rating : String
deriving DecidableEq

/-- A quick-response category with its option strings. -/
structure QuickResponse where
  category : String
  options : List String
deriving DecidableEq

/-- Who produced a chat bubble. -/
inductive MsgType
  | user
  | system
deriving DecidableEq

/-- One chat bubble; a field absent in the literal JS object is modelled
as `none` / `false`. -/
structure ChatMessage where
  mtype : MsgType
  content : String
  phase : Option String
  triage : Option TriageInfo
  error : Bool
deriving DecidableEq

/-- The response payload of `chatService.sendMessage`: `hospitals` and
`recommended_doctors` are optional and may be omitted by the backend. -/
structure TurnResult where
  message : String
  phase : String
  triage : Option TriageInfo
  hospitals : Option (List Hospital)
  recommended_doctors : Option (List Doctor)
deriving DecidableEq

/-- The mutable React state of `ChatPage`. -/
structure ChatState where
  messages : List ChatMessage
  input : String
  loading : Bool
  phase : String
  triageData : Option TriageInfo
  hospitals : List Hospital
  recommendedDoctors : List Doctor
  quickResponses : List QuickResponse
deriving DecidableEq

/-- Outcome of the awaited `chatService.sendMessage` call: resolved with
a `TurnResult`, or rejected with an error. -/
inductive ApiOutcome
  | ok (r : TurnResult)
  | err
deriving DecidableEq

/-- The `.trim()` of the source, modelled as whitespace stripping on the
underlying character list. -/
def trimmed (s : String) : String :=
  String.mk (((s.data.dropWhile Char.isWhitespace).reverse.dropWhile
    Char.isWhitespace).reverse)

/-- The user bubble appended before the API call: trimmed content. -/
def userMsgOf (text : String) : ChatMessage :=
  { mtype := MsgType.user
    content := trimmed text
    phase := none
    triage := none
    error := false }

/-- The system bubble built from a successful `TurnResult`. -/
def systemMsgOf (r : TurnResult) : ChatMessage :=
  { mtype := MsgType.system
    content := r.message
    phase := some r.phase
    triage := r.triage
    error := false }

/-- The bubble appended by the catch branch of `sendMessage`. -/
def errorMsg : ChatMessage :=
  { mtype := MsgType.system
    content := "Sorry, I encountered an error. Please try again."
    phase := none
    triage := none
    error := true }

/-- The greeting bubble installed on mount. -/
def greetingMsg : ChatMessage :=
  { mtype := MsgType.system
    content := "Hello! I\x27m your virtual health assistant. 👋\n\nPlease describe your symptoms and I\x27ll help assess your condition. You can start by telling me what\x27s bothering you today."
    phase := none
    triage := none
    error := false }

/-- The bubble installed by a successful `resetConversation`. -/
def resetMsg : ChatMessage :=
  { mtype := MsgType.system
    content := "Conversation reset. How can I help you today?"
    phase := none
    triage := none
    error := false }

/-- The initial phase of the component (`useState` default). -/
def initialPhase : String := "greeting"

/-- The component state right after mount: greeting message, empty input,
initial phase, no triage data, empty panels. -/
def chatInit : ChatState :=
  { messages := [greetingMsg]
    input := ""
    loading := false
    phase := initialPhase
    triageData := none
    hospitals := []
    recommendedDoctors := []
    quickResponses := [] }

/-- The `sendMessage` handler of `ChatPage`: guard on blank input or a
pending request; append the user bubble, clear the input and set loading;
then either apply the `TurnResult` (system bubble, phase, and each
optional payload field only when present) or append the error bubble;
finally clear loading. -/
def sendMessage (st : ChatState) (messageText : String) (api : ApiOutcome) : ChatState :=
  if trimmed messageText = "" ∨ st.loading = true then st else
  let afterUser : ChatState :=
    { st with
        messages := st.messages ++ [userMsgOf messageText]
        input := ""
        loading := true }
  match api with
  | ApiOutcome.ok r =>
    let s1 : ChatState :=
      { afterUser with
          messages := afterUser.messages ++ [systemMsgOf r]
          phase := r.phase }
    let s2 : ChatState :=
      match r.triage with
      | some t => { s1 with triageData := some t }
      | none => s1
    let s3 : ChatState :=
      match r.hospitals with
      | some hs => { s2 with hospitals := hs }
      | none => s2
    let s4 : ChatState :=
      match r.recommended_doctors with
      | some ds => { s3 with recommendedDoctors := ds }
      | none => s3
    { s4 with loading := false }
  | ApiOutcome.err =>
    { afterUser with
        messages := afterUser.messages ++ [errorMsg]
        loading := false }

/-- The `resetConversation` handler of `ChatPage`: on a successful
`chatService.resetSession` call it installs the reset bubble and clears
phase, triage data and both panels; on failure it only logs, leaving the
state unchanged. -/
def resetConversation (st : ChatState) (apiOk : Bool) : ChatState :=
  if apiOk then
    { st with
        messages := [resetMsg]
        phase := initialPhase
        triageData := none
        hospitals := []
        recommendedDoctors := [] }
  else st

/-- The colours the UI can give the rendered risk score or a phase chip. -/
inductive ScoreColor
  | red
  | amber
  | green
  | gray
deriving DecidableEq

/-- The risk-score colour chain of `ChatPage`: red when the score is
greater than 6, amber (yellow) when greater than 3, green otherwise. -/
def riskScoreColor (n : ℕ) : ScoreColor :=
  if 6 < n then ScoreColor.red
  else if 3 < n then ScoreColor.amber
  else ScoreColor.green

/-- The `getPhaseColor` switch of `ChatPage`: emergency red, appointment
yellow (amber), query green, anything else gray. -/
def getPhaseColor : Phase → ScoreColor
  | Phase.emergency => ScoreColor.red
  | Phase.appointment => ScoreColor.amber
  | Phase.query => ScoreColor.green
  | Phase.collecting => ScoreColor.gray

/-- `ChatPage` renders every risk score with a fixed denominator:
`{message.triage.risk_score}/10`. -/
def renderRiskScore (n : ℕ) : String :=
  toString n ++ "/10"

/-! ## Concrete fact sets used by the theorems below -/

/-- A fact set with all three required singleton facts set and no rule
firing. -/
def completeFacts : FactSet :=
  { temperature_f := some 99
    duration_days := some 2
    severity := some 2
    breathing_difficulty := false
    chest_pain := false }

/-- The fact set containing only the breathing_difficulty flag. -/
def breathingOnly : FactSet :=
  { temperature_f := none
    duration_days := none
    severity := none
    breathing_difficulty := true
    chest_pain := false }

/-- A fact set on which all five scoring rules fire. -/
def allFireFacts : FactSet :=
  { temperature_f := some 103
    duration_days := some 4
    severity := some 5
    breathing_difficulty := true
    chest_pain := true }

/-! ## Theorems -/

/-- Claim C1: for every fact set, the risk score is the sum of the points
of exactly the rules whose conditions hold, every matching rule firing
independently and summing with no cap, and the triggered rules are exactly
the rules whose conditions hold. -/
theorem riskScore_eq_sum_of_triggered (f : FactSet) :
    riskScore f = ((allRules.filter (fun r => ruleCondition r f)).map rulePoints).sum ∧
    triggeredRules f = allRules.filter (fun r => ruleCondition r f) := by
  cases h1 : highFeverCond f <;> cases h2 : prolongedCond f <;>
    cases h3 : breathingCond f <;> cases h4 : chestPainCond f <;>
    cases h5 : severePainCond f <;>
      simp [riskScore, triggeredRules, allRules, ruleCondition, rulePoints,
        List.filter, h1, h2, h3, h4, h5]

/-- Claim C2: when all required facts are present (so `missingRequired`
is false), classification follows the score bands with inclusive
boundaries: query exactly when score ≤ 3, appointment exactly when
4 ≤ score ≤ 6, emergency exactly when score > 6. -/
theorem classify_bands (f : FactSet) (s : ℕ) (h : missingRequired f = false) :
    (classify f s = Phase.query ↔ s ≤ 3) ∧
    (classify f s = Phase.appointment ↔ 4 ≤ s ∧ s ≤ 6) ∧
    (classify f s = Phase.emergency ↔ 6 < s) := by
  unfold classify phaseOfScore
  rw [h]
  simp only [Bool.false_and, Bool.false_eq_true, if_false]
  split_ifs with h1 h2 <;> refine ⟨?_, ?_, ?_⟩ <;> simp_all <;> omega

/-- Witness for C2: the complete no-rule fact set with score 5 is
classified as appointment. -/
theorem classify_bands_witness :
    missingRequired completeFacts = false ∧
    classify completeFacts 5 = Phase.appointment :=
  ⟨by decide, ((classify_bands completeFacts 5 (by decide)).2.1).mpr (by omega)⟩

/-- Claim C3 counterexample: the fact set containing only the
breathing_difficulty flag scores 3 and is classified as query, so
classification with breathing_difficulty present can return query. -/
theorem breathingOnly_classified_query :
    breathingOnly.breathing_difficulty = true ∧
    riskScore breathingOnly = 3 ∧
    classify breathingOnly (riskScore breathingOnly) = Phase.query := by
  decide

/-- Claim C3 (amended): for every fact set with the breathing_difficulty
flag present, classification never returns collecting (the flag overrides
the missing-facts gate), and it returns query exactly when the score is
at most 3 — in particular the fact set containing only
breathing_difficulty, whose score is 3, is classified as query. -/
theorem breathing_overrides_collecting (f : FactSet)
    (h : f.breathing_difficulty = true) :
    classify f (riskScore f) ≠ Phase.collecting ∧
    (classify f (riskScore f) = Phase.query ↔ riskScore f ≤ 3) := by
  have hov : hardOverride f = true := by simp [hardOverride, h]
  unfold classify phaseOfScore
  rw [hov]
  simp only [Bool.not_true, Bool.and_false, Bool.false_eq_true, if_false]
  split_ifs with h1 h2 <;> simp_all

/-- Witness for the amended C3: the breathing-only fact set is not left
in collecting, and is classified as query since its score is 3. -/
theorem breathing_overrides_collecting_witness :
    breathingOnly.breathing_difficulty = true ∧
    classify breathingOnly (riskScore breathingOnly) ≠ Phase.collecting :=
  ⟨by decide, (breathing_overrides_collecting breathingOnly (by decide)).1⟩

/-- Claim C6: a temperature of exactly 102.0 °F does not trigger the High
fever rule (the comparison is strict) while 102.1 °F does: the fact set
holding only temperature 102.0 scores 0 with no triggered rule, and the
same fact set with 102.1 scores 2 with exactly the High fever rule. -/
theorem fever_boundary_strict :
    riskScore (tempOnly 102) = 0 ∧
    triggeredRules (tempOnly 102) = [] ∧
    riskScore (tempOnly (102.1 : ℚ)) = 2 ∧
    triggeredRules (tempOnly (102.1 : ℚ)) = [RuleId.highFever] := by
  norm_num [riskScore, triggeredRules, tempOnly, highFeverCond, prolongedCond,
    breathingCond, chestPainCond, severePainCond]

/-- Claim C4: when the API call of a turn rejects, the catch branch
appends exactly one error bubble (after the already-appended user bubble)
and leaves phase, triage data, hospitals and recommended doctors at their
previous values; no partial phase/score update is committed and loading
is cleared. -/
theorem sendMessage_err_atomic (st : ChatState) (text : String)
    (hl : st.loading = false) (ht : trimmed text ≠ "") :
    (sendMessage st text ApiOutcome.err).phase = st.phase ∧
    (sendMessage st text ApiOutcome.err).triageData = st.triageData ∧
    (sendMessage st text ApiOutcome.err).hospitals = st.hospitals ∧
    (sendMessage st text ApiOutcome.err).recommendedDoctors = st.recommendedDoctors ∧
    (sendMessage st text ApiOutcome.err).messages =
      st.messages ++ [userMsgOf text, errorMsg] ∧
    (sendMessage st text ApiOutcome.err).loading = false := by
  have hguard : ¬ (trimmed text = "" ∨ st.loading = true) := by simp [hl, ht]
  simp [sendMessage, hguard]

/-- Witness for C4: a failing turn on the freshly mounted state with a
non-blank utterance changes none of phase, triage data or panels. -/
theorem sendMessage_err_atomic_witness :
    chatInit.loading = false ∧
    trimmed "I have a headache" ≠ "" ∧
    ((sendMessage chatInit "I have a headache" ApiOutcome.err).phase = chatInit.phase ∧
     (sendMessage chatInit "I have a headache" ApiOutcome.err).triageData = chatInit.triageData ∧
     (sendMessage chatInit "I have a headache" ApiOutcome.err).hospitals = chatInit.hospitals ∧
     (sendMessage chatInit "I have a headache" ApiOutcome.err).recommendedDoctors = chatInit.recommendedDoctors ∧
     (sendMessage chatInit "I have a headache" ApiOutcome.err).messages =
       chatInit.messages ++ [userMsgOf "I have a headache", errorMsg] ∧
     (sendMessage chatInit "I have a headache" ApiOutcome.err).loading = false) :=
  ⟨rfl, by decide, sendMessage_err_atomic chatInit "I have a headache" rfl (by decide)⟩

/-- Claim C5: an utterance that trims to the empty string is rejected by
the guard before any mutation: for every API outcome the resulting state
is exactly the previous state (so no API call can influence it and no
message, phase or triage update occurs). -/
theorem sendMessage_blank_noop (st : ChatState) (text : String)
    (api : ApiOutcome) (h : trimmed text = "") :
    sendMessage st text api = st := by
  simp [sendMessage, h]

/-- Witness for C5: a whitespace-only utterance on the freshly mounted
state leaves the state unchanged. -/
theorem sendMessage_blank_noop_witness :
    trimmed "   " = "" ∧
    sendMessage chatInit "   " ApiOutcome.err = chatInit :=
  ⟨by decide, sendMessage_blank_noop chatInit "   " ApiOutcome.err (by decide)⟩

/-- Claim C7: after a successful session reset, the stored triage data,
hospitals and recommended doctors are cleared and the phase is set back
to the initial (pre-terminal) phase, with the single reset bubble as the
message list. -/
theorem resetConversation_clears (st : ChatState) :
    (resetConversation st true).triageData = none ∧
    (resetConversation st true).hospitals = [] ∧
    (resetConversation st true).recommendedDoctors = [] ∧
    (resetConversation st true).phase = initialPhase ∧
    (resetConversation st true).messages = [resetMsg] := by
  simp [resetConversation]

/-- Claim C8: when a successful `TurnResult` omits both optional payload
fields, the turn still completes: the system bubble (not an error bubble)
and the phase are applied, and the stored hospital and doctor lists keep
their previous values. -/
theorem sendMessage_ok_degraded (st : ChatState) (text : String) (r : TurnResult)
    (hl : st.loading = false) (ht : trimmed text ≠ "")
    (hh : r.hospitals = none) (hd : r.recommended_doctors = none) :
    (sendMessage st text (ApiOutcome.ok r)).hospitals = st.hospitals ∧
    (sendMessage st text (ApiOutcome.ok r)).recommendedDoctors = st.recommendedDoctors ∧
    (sendMessage st text (ApiOutcome.ok r)).phase = r.phase ∧
    (sendMessage st text (ApiOutcome.ok r)).messages =
      st.messages ++ [userMsgOf text, systemMsgOf r] ∧
    (systemMsgOf r).error = false ∧
    (sendMessage st text (ApiOutcome.ok r)).loading = false := by
  have hguard : ¬ (trimmed text = "" ∨ st.loading = true) := by simp [hl, ht]
  cases htr : r.triage <;>
    simp [sendMessage, hguard, hh, hd, htr, systemMsgOf]

/-- A turn result whose directory lookups were omitted (graceful
degradation): reply and triage present, both optional lists absent. -/
def degradedResult : TurnResult :=
  { message := "Your symptoms look mild. Please rest and stay hydrated."
    phase := "query"
    triage := some { risk_score := 2 }
    hospitals := none
    recommended_doctors := none }

/-- Witness for C8: a degraded turn on the freshly mounted state applies
the reply and phase and leaves both stored lists unchanged. -/
theorem sendMessage_ok_degraded_witness :
    chatInit.loading = false ∧
    trimmed "mild cough" ≠ "" ∧
    degradedResult.hospitals = none ∧
    degradedResult.recommended_doctors = none ∧
    ((sendMessage chatInit "mild cough" (ApiOutcome.ok degradedResult)).hospitals = chatInit.hospitals ∧
     (sendMessage chatInit "mild cough" (ApiOutcome.ok degradedResult)).recommendedDoctors = chatInit.recommendedDoctors ∧
     (sendMessage chatInit "mild cough" (ApiOutcome.ok degradedResult)).phase = degradedResult.phase ∧
     (sendMessage chatInit "mild cough" (ApiOutcome.ok degradedResult)).messages =
       chatInit.messages ++ [userMsgOf "mild cough", systemMsgOf degradedResult] ∧
     (systemMsgOf degradedResult).error = false ∧
     (sendMessage chatInit "mild cough" (ApiOutcome.ok degradedResult)).loading = false) :=
  ⟨rfl, by decide, rfl, rfl,
    sendMessage_ok_degraded chatInit "mild cough" degradedResult rfl (by decide) rfl rfl⟩

/-- Claim C9: on the fact set where all five rules fire the uncapped
score is 2+2+3+4+2 = 13, while the chat UI renders every risk score over
a fixed denominator of 10, so this reachable score is displayed as
"13/10" — a value exceeding its displayed maximum. -/
theorem score_exceeds_display_max :
    triggeredRules allFireFacts = allRules ∧
    riskScore allFireFacts = 13 ∧
    renderRiskScore (riskScore allFireFacts) = "13/10" ∧
    10 < riskScore allFireFacts := by
  have hs : riskScore allFireFacts = 13 := by
    norm_num [riskScore, allFireFacts, highFeverCond, prolongedCond,
      breathingCond, chestPainCond, severePainCond]
  refine ⟨?_, hs, ?_, ?_⟩
  · norm_num [triggeredRules, allRules, allFireFacts, highFeverCond,
      prolongedCond, breathingCond, chestPainCond, severePainCond]
  · rw [hs]; decide
  · rw [hs]; norm_num

/-- Claim C10: the risk-score colour chain of the chat UI partitions
integer scores exactly as the phase classifier bands do — for every
score, the score colour equals the phase-chip colour of the classified
band (red/emergency above 6, amber/appointment for 4..6, green/query at
3 and below). -/
theorem riskScoreColor_matches_bands (n : ℕ) :
    riskScoreColor n = getPhaseColor (phaseOfScore n) := by
  unfold riskScoreColor getPhaseColor phaseOfScore
  split_ifs <;> first | rfl | omega

end MediTriage
